import Mathlib

/-!
Shallow embedding of the two C source files of the rayzor repository:
  src/compiler/tests/hdll_fixtures/testmath.c  (test fixture library)
  src/ci/bench-test/seghandler.c               (crash diagnostic shim)

Machine integers (C `int`, 32-bit signed) are modelled as `Int` with an
explicit wrap modulo 2^32 into the representative range [-2^31, 2^31).
C `double` arithmetic is modelled exactly over `ℚ`: the embedding keeps
the control structure of the code (branches, loop bounds, the update
formula) and abstracts the per-operation IEEE-754 rounding.
Side effects (stderr output, process exit, libc calls) are modelled as
explicit event lists returned by the embedded functions.
-/

/-- Two's-complement wrap of an integer into the 32-bit signed range
[-2^31, 2^31), the behaviour of 32-bit `int` arithmetic on the targets
the fixture is built for. -/
def wrap32 (n : Int) : Int :=
  (n + 2 ^ 31) % 2 ^ 32 - 2 ^ 31

/-- `n` is a representable 32-bit signed integer. -/
def inRange32 (n : Int) : Prop :=
  -2 ^ 31 ≤ n ∧ n < 2 ^ 31

/-- Embeds `testmath_add` from testmath.c: `return a + b;` on 32-bit `int`. -/
def testmath_add (a b : Int) : Int :=
  wrap32 (a + b)

/-- Embeds `testmath_multiply` from testmath.c: `return a * b;` on 32-bit `int`. -/
def testmath_multiply (a b : Int) : Int :=
  wrap32 (a * b)

/-- Embeds the `for (int i = 0; i < n; i++) guess = (guess + x / guess) / 2.0;`
loop body of `testmath_sqrt_approx`: running the loop `n` times from the
current value `g` of `guess`. -/
def sqrtLoopAux (x : ℚ) : ℚ → Nat → ℚ
  | g, 0 => g
  | g, n + 1 => sqrtLoopAux x ((g + x / g) / 2) n

/-- Embeds `testmath_sqrt_approx` from testmath.c: return 0 when `x <= 0`,
otherwise run the Newton loop ten times starting from `x / 2`. -/
def testmath_sqrt_approx (x : ℚ) : ℚ :=
  if x ≤ 0 then 0 else sqrtLoopAux x (x / 2) 10

/-- The Newton update `g <- (g + x/g) / 2` exactly as the spec words it. -/
def newtonStep (x g : ℚ) : ℚ :=
  (g + x / g) / 2

/-- `sqrt_approx` as the spec describes it: 0 for any input ≤ 0, otherwise
exactly ten iterations of the Newton update starting from `x / 2`. -/
def sqrt_approx_spec (x : ℚ) : ℚ :=
  if x ≤ 0 then 0 else (newtonStep x)^[10] (x / 2)

lemma sqrtLoopAux_eq_iterate (x : ℚ) : ∀ (n : Nat) (g : ℚ),
    sqrtLoopAux x g n = (newtonStep x)^[n] g := by
  intro n
  induction n with
  | zero => intro g; rfl
  | succ k ih =>
    intro g
    rw [sqrtLoopAux, ih, Function.iterate_succ_apply, newtonStep]

lemma sqrtLoopAux_pos (x : ℚ) (hx : 0 < x) : ∀ (n : Nat) (g : ℚ),
    0 < g → 0 < sqrtLoopAux x g n := by
  intro n
  induction n with
  | zero => intro g hg; simpa [sqrtLoopAux] using hg
  | succ k ih =>
    intro g hg
    rw [sqrtLoopAux]
    exact ih _ (by positivity)

/-- C1: for every input `x`, `testmath_sqrt_approx` returns exactly 0 when
`x ≤ 0` and otherwise the result of exactly ten iterations of the Newton
update `g <- (g + x/g) / 2` from the initial guess `x / 2`, with no early
exit on convergence (arithmetic modelled exactly over `ℚ`). -/
theorem sqrt_approx_matches_spec (x : ℚ) :
    testmath_sqrt_approx x = sqrt_approx_spec x := by
  unfold testmath_sqrt_approx sqrt_approx_spec
  by_cases h : x ≤ 0
  · simp [h]
  · simp [h, sqrtLoopAux_eq_iterate]

/-- C9: for every input `x > 0`, the running guess of the Newton loop in
`testmath_sqrt_approx` stays strictly positive after any number of
iterations, so every divisor `guess` used by `x / guess` inside the loop is
nonzero (and the initial division `x / 2` has nonzero divisor). -/
theorem sqrt_guess_positive (x : ℚ) (k : Nat) (hx : 0 < x) :
    0 < sqrtLoopAux x (x / 2) k ∧ sqrtLoopAux x (x / 2) k ≠ 0 := by
  have h : 0 < sqrtLoopAux x (x / 2) k :=
    sqrtLoopAux_pos x hx k (x / 2) (by positivity)
  exact ⟨h, ne_of_gt h⟩

/-- Witness for C9 at the concrete input `x = 16`, `k = 3`. -/
theorem sqrt_guess_positive_check :
    0 < (16 : ℚ) ∧ (0 < sqrtLoopAux 16 (16 / 2) 3 ∧ sqrtLoopAux 16 (16 / 2) 3 ≠ 0) :=
  ⟨by norm_num, sqrt_guess_positive 16 3 (by norm_num)⟩

/-- C4: `add` returns the wrapping sum and `multiply` the wrapping product
of its 32-bit operands: the result is congruent to the exact sum (resp.
product) modulo 2^32 and lies in the signed 32-bit range, so overflow wraps
rather than trapping or saturating; in particular `add 2 3 = 5`. -/
theorem add_multiply_wrapping :
    (∀ a b : Int, testmath_add a b % 2 ^ 32 = (a + b) % 2 ^ 32
      ∧ inRange32 (testmath_add a b))
    ∧ (∀ a b : Int, testmath_multiply a b % 2 ^ 32 = (a * b) % 2 ^ 32
      ∧ inRange32 (testmath_multiply a b))
    ∧ testmath_add 2 3 = 5 := by
  refine ⟨?_, ?_, by decide⟩
  · intro a b
    unfold testmath_add wrap32 inRange32
    omega
  · intro a b
    unfold testmath_multiply wrap32 inRange32
    omega

/-- C10: `add` and `multiply` are commutative. -/
theorem add_multiply_commutative (a b : Int) :
    testmath_add a b = testmath_add b a
      ∧ testmath_multiply a b = testmath_multiply b a := by
  unfold testmath_add testmath_multiply
  rw [Int.add_comm, Int.mul_comm]
  exact ⟨rfl, rfl⟩

/-! ### hlp_ introspection symbols (testmath.c) -/

/-- Scalar C types appearing in the fixture's declared prototypes. -/
inductive CType
  | i32
  | f64
  deriving DecidableEq

/-- The signature type-code letter of each scalar type, per the fixed
signature grammar (`i` = 32-bit signed integer, `d` = 64-bit float). -/
def typeCode : CType → Char
  | .i32 => 'i'
  | .f64 => 'd'

/-- Builds the signature string `param-codes ++ "_" ++ return-code` from a
declared parameter list and return type. -/
def declaredSig (params : List CType) (ret : CType) : String :=
  String.mk (params.map typeCode ++ ['_', typeCode ret])

/-- A character is a valid parameter type code of the signature grammar
(`v` is return-only). -/
def isParamCode (c : Char) : Bool :=
  c == 'i' || c == 'd' || c == 'b' || c == 'B'

/-- A character is a valid return type code of the signature grammar. -/
def isRetCode (c : Char) : Bool :=
  c == 'i' || c == 'd' || c == 'v' || c == 'b' || c == 'B'

/-- A string is a well-formed signature: parameter codes, one underscore,
one return code. -/
def wellFormedSig (s : String) : Bool :=
  match s.toList.reverse with
  | r :: '_' :: params => isRetCode r && params.all isParamCode
  | _ => false

/-- The code pointers the fixture can hand out: addresses of the three
primitives. A nullable C `void*` is modelled as `Option FnPtr`. -/
inductive FnPtr
  | ptr_add
  | ptr_multiply
  | ptr_sqrt_approx
  deriving DecidableEq

/-- Invoking a code pointer with two 32-bit integer arguments (the `ii_i`
calling shape); `none` when the pointee does not have that shape. -/
def callII : FnPtr → Int → Int → Option Int
  | .ptr_add, a, b => some (testmath_add a b)
  | .ptr_multiply, a, b => some (testmath_multiply a b)
  | .ptr_sqrt_approx, _, _ => none

/-- Invoking a code pointer with one 64-bit float argument (the `d_d`
calling shape); `none` when the pointee does not have that shape. -/
def callD : FnPtr → ℚ → Option ℚ
  | .ptr_sqrt_approx, x => some (testmath_sqrt_approx x)
  | _, _ => none

/-- Embeds `hlp_add` from testmath.c: overwrite the out-slot with the
static string `"ii_i"` and return the address of `testmath_add`. The
argument is the slot's previous content (ignored by the code); the result
is the slot's new content paired with the returned pointer. -/
def hlp_add (_slot : Option String) : Option String × Option FnPtr :=
  (some "ii_i", some .ptr_add)

/-- Embeds `hlp_multiply` from testmath.c: slot gets `"ii_i"`, returns the
address of `testmath_multiply`. -/
def hlp_multiply (_slot : Option String) : Option String × Option FnPtr :=
  (some "ii_i", some .ptr_multiply)

/-- Embeds `hlp_sqrt_approx` from testmath.c: slot gets `"d_d"`, returns
the address of `testmath_sqrt_approx`. -/
def hlp_sqrt_approx (_slot : Option String) : Option String × Option FnPtr :=
  (some "d_d", some .ptr_sqrt_approx)

/-- Declared prototype of `testmath_add` in testmath.c:
`int testmath_add(int a, int b)`. -/
def add_decl : List CType × CType := ([.i32, .i32], .i32)

/-- Declared prototype of `testmath_multiply` in testmath.c:
`int testmath_multiply(int a, int b)`. -/
def multiply_decl : List CType × CType := ([.i32, .i32], .i32)

/-- Declared prototype of `testmath_sqrt_approx` in testmath.c:
`double testmath_sqrt_approx(double x)`. -/
def sqrt_approx_decl : List CType × CType := ([.f64], .f64)

/-- The symbols testmath.c exports (every file-scope non-static function). -/
def exportedSymbols : List String :=
  ["testmath_add", "testmath_multiply", "testmath_sqrt_approx",
   "hlp_add", "hlp_multiply", "hlp_sqrt_approx"]

/-- The exported symbol names of the three primitives themselves. -/
def primSymbols : List String :=
  ["testmath_add", "testmath_multiply", "testmath_sqrt_approx"]

/-- The short primitive names the spec's table uses, paired with the
primitive's exported symbol name. -/
def primNames : List (String × String) :=
  [("add", "testmath_add"), ("multiply", "testmath_multiply"),
   ("sqrt_approx", "testmath_sqrt_approx")]

/-- C5: each `hlp_` companion, called with any out-slot, writes a non-null
pointer to a well-formed signature string whose codes match the declared
parameter and return types of its primitive (`"ii_i"` for add and multiply,
`"d_d"` for sqrt_approx) and returns a non-null code pointer. -/
theorem hlp_signatures_correct (slot : Option String) :
    (hlp_add slot = (some "ii_i", some .ptr_add)
      ∧ "ii_i" = declaredSig add_decl.1 add_decl.2
      ∧ wellFormedSig "ii_i" = true)
    ∧ (hlp_multiply slot = (some "ii_i", some .ptr_multiply)
      ∧ "ii_i" = declaredSig multiply_decl.1 multiply_decl.2)
    ∧ (hlp_sqrt_approx slot = (some "d_d", some .ptr_sqrt_approx)
      ∧ "d_d" = declaredSig sqrt_approx_decl.1 sqrt_approx_decl.2
      ∧ wellFormedSig "d_d" = true) :=
  ⟨⟨rfl, rfl, rfl⟩, ⟨rfl, rfl⟩, ⟨rfl, rfl, rfl⟩⟩

/-- C6 as stated is false: the primitive symbol exported by testmath.c is
`testmath_add`, yet no symbol `hlp_testmath_add` (the exported name with
`hlp_` prepended) is exported — the companion is `hlp_add`; likewise no
symbol `add` itself is exported, so under neither reading of the
primitive's name does the `P` / `hlp_P` pairing hold of exported names. -/
theorem hlp_naming_refuted :
    "testmath_add" ∈ exportedSymbols
      ∧ ("hlp_" ++ "testmath_add") ∉ exportedSymbols
      ∧ "add" ∉ exportedSymbols := by
  decide

/-- C6 amended: each primitive's exported symbol is `testmath_` followed by
the spec's short primitive name, and the exported companion is `hlp_`
followed by that same short name — the companion name is derived from the
short primitive name, not from the primitive's full exported symbol. -/
theorem hlp_naming_short_names :
    ∀ p ∈ primNames, p.2 = "testmath_" ++ p.1
      ∧ p.2 ∈ exportedSymbols
      ∧ ("hlp_" ++ p.1) ∈ exportedSymbols := by
  decide

/-- Witness for C6's amended theorem at the concrete primitive `add`. -/
theorem hlp_naming_short_names_check :
    ("add", "testmath_add") ∈ primNames
      ∧ ("testmath_add" = "testmath_" ++ "add"
        ∧ "testmath_add" ∈ exportedSymbols
        ∧ ("hlp_" ++ "add") ∈ exportedSymbols) :=
  ⟨by decide, hlp_naming_short_names ("add", "testmath_add") (by decide)⟩

/-- C7: dispatching through the code pointer each `hlp_` companion returns,
with arguments matching the signature, yields exactly the result of calling
the primitive directly. -/
theorem hlp_pointers_dispatch (slot : Option String) :
    (∀ a b : Int, ∃ p, (hlp_add slot).2 = some p
      ∧ callII p a b = some (testmath_add a b))
    ∧ (∀ a b : Int, ∃ p, (hlp_multiply slot).2 = some p
      ∧ callII p a b = some (testmath_multiply a b))
    ∧ (∀ x : ℚ, ∃ p, (hlp_sqrt_approx slot).2 = some p
      ∧ callD p x = some (testmath_sqrt_approx x)) :=
  ⟨fun _ _ => ⟨.ptr_add, rfl, rfl⟩,
   fun _ _ => ⟨.ptr_multiply, rfl, rfl⟩,
   fun _ => ⟨.ptr_sqrt_approx, rfl, rfl⟩⟩

/-! ### Crash diagnostic shim (seghandler.c) -/

/-- One output action of the shim. `streamWrite s text` models
`fprintf(s, ...)` through a C `FILE*` stream; `fdWrite fd text` models a
direct file-descriptor write such as `backtrace_symbols_fd(..., fd)`. -/
inductive OutOp
  | streamWrite (stream : String) (text : String)
  | fdWrite (fd : Nat) (text : String)
  deriving DecidableEq

/-- The output action targets standard error (the `stderr` stream or file
descriptor 2). -/
def onStderr : OutOp → Bool
  | .streamWrite s _ => s == "stderr"
  | .fdWrite fd _ => fd == 2

/-- Result of a `segfault_handler` invocation: the ordered stderr output
and the status passed to `_exit`. -/
structure HandlerResult where
  output : List OutOp
  exitStatus : Int
  deriving DecidableEq

/-- The signals `install_handler` registers: SIGSEGV, SIGABRT, SIGBUS
(Linux numbering 11, 6, 7). -/
def registeredSignals : List Int := [11, 6, 7]

/-- Embeds `segfault_handler` from seghandler.c. Inputs: the delivered
signal number `sig`, the fault address `si_addr` and code `si_code` from
the `siginfo_t` record, and the current call stack `stack` (the return
addresses `backtrace` would capture, innermost first, rendered
symbolically). The handler prints the header, fault address and SI code
via `fprintf(stderr, ...)`, captures at most 100 frames, prints the
backtrace banner, writes the symbolised frames directly to file descriptor
2 via `backtrace_symbols_fd`, and calls `_exit(128 + sig)`. -/
def segfault_handler (sig : Int) (si_addr : String) (si_code : Int)
    (stack : List String) : HandlerResult :=
  let captured := stack.take 100
  { output :=
      [OutOp.streamWrite "stderr" ("\n=== SIGNAL " ++ toString sig ++ " CAUGHT ===\n"),
       OutOp.streamWrite "stderr" ("Fault address: " ++ si_addr ++ "\n"),
       OutOp.streamWrite "stderr" ("SI code: " ++ toString si_code ++ "\n"),
       OutOp.streamWrite "stderr"
         ("\nBacktrace (" ++ toString captured.length ++ " frames):\n")]
      ++ captured.map (fun f => OutOp.fdWrite 2 (f ++ "\n")),
    exitStatus := 128 + sig }

/-- The libc operations `segfault_handler` invokes, in program order. -/
inductive LibCall
  | fprintfStderr
  | backtraceCapture
  | backtraceSymbolsFd
  | exitImmediate
  deriving DecidableEq

/-- The call sequence of `segfault_handler`: three `fprintf`s (header,
fault address, SI code), `backtrace`, one more `fprintf` (backtrace
banner), `backtrace_symbols_fd`, `_exit`. -/
def handlerCalls : List LibCall :=
  [.fprintfStderr, .fprintfStderr, .fprintfStderr,
   .backtraceCapture, .fprintfStderr, .backtraceSymbolsFd, .exitImmediate]

/-- The call performs its output through a buffered C `FILE*` stream
(`fprintf` takes the `stderr` stream) rather than a raw file descriptor. -/
def usesBufferedStream : LibCall → Bool
  | .fprintfStderr => true
  | _ => false

/-- Environment of a run of `install_handler`: whether the alternate-stack
allocation (`malloc`), the `sigaltstack` registration, or any of the three
`sigaction` registrations fails. -/
structure InstallEnv where
  mallocFails : Bool
  sigaltstackFails : Bool
  sigactionFails : Bool
  deriving DecidableEq

/-- Result of `install_handler`: the stderr output, whether the host
process was aborted, and whether signal protection is actually in place. -/
structure InstallResult where
  output : List OutOp
  aborted : Bool
  protectionActive : Bool
  deriving DecidableEq

/-- The confirmation line `install_handler` prints. -/
def installConfirmMsg : OutOp :=
  OutOp.streamWrite "stderr" "[seghandler] Signal handlers installed\n"

/-- Embeds `install_handler` from seghandler.c. The code calls `malloc`,
`sigaltstack`, `memset`, `sigemptyset` and three `sigaction`s without ever
inspecting a return value, then unconditionally prints the confirmation
line: the output and the (non-)abort are independent of every failure in
the environment; protection is in place only when nothing failed. -/
def install_handler (env : InstallEnv) : InstallResult :=
  { output := [installConfirmMsg],
    aborted := false,
    protectionActive :=
      !(env.mallocFails || env.sigaltstackFails || env.sigactionFails) }

/-- C3 as the spec states it: whenever alternate-stack allocation or
handler registration fails, `install_handler` prints some diagnostic
distinct from the success confirmation, and the confirmation is printed
only when installation succeeded. -/
def installDiagnosesFailure : Prop :=
  ∀ env : InstallEnv,
    ((env.mallocFails || env.sigaltstackFails || env.sigactionFails) = true →
      ∃ op ∈ (install_handler env).output, op ≠ installConfirmMsg)
    ∧ (installConfirmMsg ∈ (install_handler env).output →
      (env.mallocFails || env.sigaltstackFails || env.sigactionFails) = false)

/-- C3 as stated is false: in the environment where the alternate-stack
allocation fails, `install_handler` still prints exactly the success
confirmation and no diagnostic. -/
theorem install_failure_diagnostic_missing :
    ¬ installDiagnosesFailure := by
  intro h
  have h2 := (h ⟨true, false, false⟩).2 (by decide)
  simp at h2

/-- C3 amended: `install_handler` performs no failure checks at all — for
every combination of alternate-stack-allocation and registration failures
it prints exactly the one confirmation line (so the confirmation also
appears when installation failed), prints no diagnostic, and never aborts
the host; only the never-fatal part of the claim holds. -/
theorem install_unconditional_confirmation (env : InstallEnv) :
    (install_handler env).output = [installConfirmMsg]
      ∧ (install_handler env).aborted = false := by
  exact ⟨rfl, rfl⟩

/-- C2: on delivery of any registered signal, the handler writes to
standard error, in order, the header line naming `sig`, the fault-address
line, the SI-code line, the backtrace banner, and the symbolised frames of
at most 100 captured return addresses; every output action targets
standard error, and the process exits with status `128 + sig`. -/
theorem handler_output_and_exit (sig : Int) (si_addr : String) (si_code : Int)
    (stack : List String) (_hsig : sig ∈ registeredSignals) :
    (segfault_handler sig si_addr si_code stack).output =
      [OutOp.streamWrite "stderr" ("\n=== SIGNAL " ++ toString sig ++ " CAUGHT ===\n"),
       OutOp.streamWrite "stderr" ("Fault address: " ++ si_addr ++ "\n"),
       OutOp.streamWrite "stderr" ("SI code: " ++ toString si_code ++ "\n"),
       OutOp.streamWrite "stderr"
         ("\nBacktrace (" ++ toString (min stack.length 100) ++ " frames):\n")]
      ++ (stack.take 100).map (fun f => OutOp.fdWrite 2 (f ++ "\n"))
    ∧ (∀ op ∈ (segfault_handler sig si_addr si_code stack).output,
        onStderr op = true)
    ∧ (segfault_handler sig si_addr si_code stack).exitStatus = 128 + sig := by
  refine ⟨?_, ?_, rfl⟩
  · simp [segfault_handler, List.length_take, Nat.min_comm]
  · intro op hop
    simp only [segfault_handler, List.mem_append, List.mem_cons,
      List.not_mem_nil, or_false, List.mem_map] at hop
    rcases hop with (h | h | h | h) | ⟨f, _, h⟩ <;> subst h <;> rfl

/-- Witness for C2: SIGSEGV (11) at fault address 0x0, SI code 1, with a
two-frame stack. -/
theorem handler_output_and_exit_check :
    (11 : Int) ∈ registeredSignals ∧
    ((segfault_handler 11 "0x0" 1 ["frame0", "frame1"]).output =
      [OutOp.streamWrite "stderr" ("\n=== SIGNAL " ++ toString (11 : Int) ++ " CAUGHT ===\n"),
       OutOp.streamWrite "stderr" ("Fault address: " ++ "0x0" ++ "\n"),
       OutOp.streamWrite "stderr" ("SI code: " ++ toString (1 : Int) ++ "\n"),
       OutOp.streamWrite "stderr"
         ("\nBacktrace (" ++ toString (min (["frame0", "frame1"] : List String).length 100)
           ++ " frames):\n")]
      ++ ((["frame0", "frame1"] : List String).take 100).map
          (fun f => OutOp.fdWrite 2 (f ++ "\n"))
    ∧ (∀ op ∈ (segfault_handler 11 "0x0" 1 ["frame0", "frame1"]).output,
        onStderr op = true)
    ∧ (segfault_handler 11 "0x0" 1 ["frame0", "frame1"]).exitStatus = 128 + 11) :=
  ⟨by decide, handler_output_and_exit 11 "0x0" 1 ["frame0", "frame1"] (by decide)⟩

/-- C8 as the spec states it: every libc operation the handler reaches
avoids buffered streams, writing only via raw file descriptors. -/
def handlerAvoidsStreams : Prop :=
  ∀ c ∈ handlerCalls, usesBufferedStream c = false

/-- C8 as stated is false: the handler's header, fault-address, SI-code
and banner lines go through `fprintf` on the `stderr` stream, a buffered
`FILE*` operation that is not on the async-signal-safe list, rather than
through a direct file-descriptor write. -/
theorem handler_stream_io_refuted :
    LibCall.fprintfStderr ∈ handlerCalls
      ∧ usesBufferedStream LibCall.fprintfStderr = true
      ∧ ¬ handlerAvoidsStreams := by
  refine ⟨by decide, rfl, fun h => ?_⟩
  have h2 := h LibCall.fprintfStderr (by decide)
  simp [usesBufferedStream] at h2

/-- C8 amended: only the backtrace output (`backtrace_symbols_fd`) is a
direct file-descriptor write and termination uses `_exit`; the four
formatted lines are `fprintf` calls through the `stderr` stream, so the
handler is not restricted to stream-free output. -/
theorem handler_io_classification :
    handlerCalls.filter usesBufferedStream =
      [.fprintfStderr, .fprintfStderr, .fprintfStderr, .fprintfStderr]
      ∧ (∀ c ∈ handlerCalls, usesBufferedStream c = true → c = .fprintfStderr)
      ∧ handlerCalls.getLast? = some .exitImmediate
      ∧ LibCall.backtraceSymbolsFd ∈ handlerCalls := by
  refine ⟨by decide, ?_, by decide, by decide⟩
  intro c hc h
  cases c <;> simp_all [usesBufferedStream]
